import Mathlib

/-!
Verification development for the astrophoto server's capture-job engine.

The Python sources are shallowly embedded:
* `app/services/bulk_capture_service.py` / `app/api/bulk_capture_api.py`
  (the two files contain the same `BulkCaptureJob` class; the api file also
  holds the HTTP endpoints and the module-level `active_jobs` registry),
* `app/api/calibration_api.py` (`CalibrationJob` and its endpoints),
* `app/services/camera_service.py` (`CameraService.connect`/`is_connected`).

Modelling conventions:
* Python `str` values that undergo structural reasoning (filenames) are
  `List Char`; strings only compared for equality stay `String`.
* Python `float` timestamps/intervals are `Rat` (exact arithmetic stands in
  for IEEE floats; every claim here only needs ordering and ring laws on
  values the code derives by + * / of inputs).
* The job task runs on a cooperative event loop; control calls
  (`pause`/`resume`/`cancel`) interleave only at `await` points.  The values
  the loop reads from the shared flags `_cancelled`/`_paused` at each of its
  checkpoints are therefore supplied per-iteration by an environment oracle,
  and the pause idle-wait is assumed to terminate (a job paused forever never
  reaches any state this file reasons about).
* Fallible calls return `Except`; an uncaught Python exception is the
  `.error` case.
-/

namespace AstroServer

/-! ## Decimal rendering: Python's `f"{n:03d}"` -/

/-- The character for a single decimal digit, as Python prints it. -/
def digitChar (d : Nat) : Char := Char.ofNat (48 + d)

/-- Big-endian decimal digits of `n` as characters, fuel-indexed so that the
recursion is structural.  `decRender` below instantiates the fuel. -/
def decAux : Nat → Nat → List Char
  | 0, _ => []
  | fuel + 1, n =>
    if n < 10 then [digitChar n]
    else decAux fuel (n / 10) ++ [digitChar (n % 10)]

/-- Python's `str(n)` for a natural number, as a character list. -/
def decRender (n : Nat) : List Char := decAux (n + 1) n

/-- Python's `f"{n:03d}"`: zero-pad the decimal rendering to width 3. -/
def pad3 (n : Nat) : List Char :=
  List.replicate (3 - (decRender n).length) '0' ++ decRender n

/-- Reads a digit string back into a number (the proof-side inverse of
`decRender`; not part of the source). -/
def decParse (l : List Char) : Nat :=
  l.foldl (fun acc c => acc * 10 + (c.toNat - 48)) 0

theorem digitChar_toNat {d : Nat} (hd : d < 10) : (digitChar d).toNat = 48 + d := by
  interval_cases d <;> rfl

theorem decAux_succ (fuel n : Nat) :
    decAux (fuel + 1) n
      = if n < 10 then [digitChar n] else decAux fuel (n / 10) ++ [digitChar (n % 10)] := rfl

theorem decParse_step (l : List Char) (c : Char) (acc : Nat) :
    (l ++ [c]).foldl (fun acc c => acc * 10 + (c.toNat - 48)) acc
      = (l.foldl (fun acc c => acc * 10 + (c.toNat - 48)) acc) * 10 + (c.toNat - 48) := by
  simp [List.foldl_append]

theorem decParse_decAux (fuel : Nat) :
    ∀ n acc, n ≤ fuel →
      (decAux (fuel + 1) n).foldl (fun acc c => acc * 10 + (c.toNat - 48)) acc
        = acc * 10 ^ (decAux (fuel + 1) n).length + n := by
  induction fuel with
  | zero =>
    intro n acc hn
    interval_cases n
    simp [decAux, digitChar_toNat]
  | succ fuel ih =>
    intro n acc _
    by_cases h10 : n < 10
    · rw [decAux_succ, if_pos h10]
      simp [digitChar_toNat h10]
    · have hrec : n / 10 ≤ fuel := by omega
      have hmod : n % 10 < 10 := Nat.mod_lt _ (by omega)
      rw [decAux_succ, if_neg h10, decParse_step, ih (n / 10) acc hrec,
        digitChar_toNat hmod, List.length_append, List.length_singleton, pow_succ]
      generalize 10 ^ (decAux (fuel + 1) (n / 10)).length = m
      have h48 : 48 + n % 10 - 48 = n % 10 := by omega
      rw [h48]
      have hd : (acc * m + n / 10) * 10 = acc * (m * 10) + n / 10 * 10 := by ring
      rw [hd]
      omega

theorem decParse_decRender (n : Nat) : decParse (decRender n) = n := by
  have h := decParse_decAux n n 0 (le_refl n)
  simpa [decParse, decRender] using h

theorem decParse_pad3 (n : Nat) : decParse (pad3 n) = n := by
  have hzeros : ∀ k acc, acc = 0 →
      (List.replicate k '0').foldl (fun acc c => acc * 10 + (c.toNat - 48)) acc = 0 := by
    intro k
    induction k with
    | zero => intro acc h; simp [h]
    | succ k ih =>
      intro acc h
      simp only [List.replicate_succ, List.foldl_cons]
      exact ih _ (by subst h; rfl)
  have : decParse (pad3 n)
      = (decRender n).foldl (fun acc c => acc * 10 + (c.toNat - 48))
          ((List.replicate (3 - (decRender n).length) '0').foldl
            (fun acc c => acc * 10 + (c.toNat - 48)) 0) := by
    simp [decParse, pad3, List.foldl_append]
  rw [this, hzeros _ 0 rfl]
  exact decParse_decRender n

theorem pad3_injective : Function.Injective pad3 := by
  intro a b hab
  have ha := decParse_pad3 a
  have hb := decParse_pad3 b
  rw [hab] at ha
  omega

theorem decRender_length_le (fuel : Nat) :
    ∀ n, n ≤ fuel → n < 1000 → (decAux (fuel + 1) n).length ≤ 3 := by
  induction fuel with
  | zero =>
    intro n hn _
    interval_cases n
    simp [decAux]
  | succ fuel ih =>
    intro n hn h1000
    by_cases h10 : n < 10
    · simp [decAux, h10]
    · have hrec := ih (n / 10) (by omega) (by omega)
      have h100 : n / 10 < 100 := by omega
      by_cases h10' : n / 10 < 10
      · simp [decAux, h10, h10']
      · have hrec2 : (decAux fuel (n / 10 / 10)).length ≤ 1 := by
          rcases fuel with _ | fuel
          · simp [decAux]
          · have : n / 10 / 10 < 10 := by omega
            simp [decAux, this]
        simp only [decAux, if_neg h10, if_neg h10', List.length_append]
        simp at hrec2 ⊢
        omega

theorem pad3_length_eq_three {n : Nat} (h : n < 1000) : (pad3 n).length = 3 := by
  have hle : (decRender n).length ≤ 3 := decRender_length_le n n (le_refl n) h
  simp only [pad3, List.length_append, List.length_replicate]
  omega

/-! ## Bulk capture: `BulkCaptureJob` (bulk_capture_service.py / bulk_capture_api.py) -/

/-- The string values `BulkCaptureJob.status` takes
("running", "paused", "completed", "cancelled", "error"). -/
inductive JobStatus
  | running
  | paused
  | completed
  | cancelled
  | error
deriving DecidableEq, Repr

/-- `BulkCaptureRequest` (pydantic model).  `interval_seconds` is a float,
modelled as `Rat`; the two `Optional[str]` fields keep only the information
the job reads from them. -/
structure BulkCaptureRequest where
  count : Nat
  interval_seconds : Rat
  session_id : Option String
  base_name : Option (List Char)
deriving DecidableEq, Repr

/-- The field constraints pydantic enforces when the request model is
constructed: `count` in (0, 1000], `interval_seconds` in [0, 3600]. -/
def BulkCaptureRequest.pydanticValid (r : BulkCaptureRequest) : Prop :=
  0 < r.count ∧ r.count ≤ 1000 ∧ 0 ≤ r.interval_seconds ∧ r.interval_seconds ≤ 3600

instance (r : BulkCaptureRequest) : Decidable r.pydanticValid := by
  unfold BulkCaptureRequest.pydanticValid; infer_instance

/-- The mutable attributes of a `BulkCaptureJob` that the claims are about.
`cancelledFlag`/`pausedFlag` are `_cancelled`/`_paused`. -/
structure BulkJobState where
  status : JobStatus
  progress : Nat
  successful_captures : Nat
  failed_captures : Nat
  error_message : Option String
  cancelledFlag : Bool
  pausedFlag : Bool
deriving DecidableEq, Repr

/-- `BulkCaptureJob.__init__`: status "running", all counters zero. -/
def initBulkState : BulkJobState :=
  { status := .running
    progress := 0
    successful_captures := 0
    failed_captures := 0
    error_message := none
    cancelledFlag := false
    pausedFlag := false }

/-- What one `camera_service.capture(...)` attempt looks like from inside the
job's try-block: a truthy result dict, a falsy result, or a raised exception
(with its message). -/
inductive CaptureOutcome
  | ok
  | falsy
  | exc (msg : String)
deriving DecidableEq, Repr

/-- Oracle inputs for one iteration of the bulk loop: the values the loop
reads from `_cancelled` at its two checkpoints, the `is_connected()` answer,
and the capture attempt's outcome.  Control calls interleave only at await
points, so these reads fully determine the iteration. -/
structure BulkFrameEnv where
  cancelAtTop : Bool
  cancelAfterPause : Bool
  connected : Bool
  outcome : CaptureOutcome
deriving DecidableEq, Repr

/-- Result of one loop iteration: continue to the next frame, or break out. -/
inductive IterResult
  | cont (s : BulkJobState)
  | brk (s : BulkJobState)
deriving DecidableEq, Repr

/-- The state an `IterResult` carries. -/
def IterResult.state : IterResult → BulkJobState
  | .cont s => s
  | .brk s => s

/-- One iteration of the `for i in range(self.request.count)` body of
`BulkCaptureJob.run` (both copies of the class have the identical body).
The pause idle-wait is assumed to terminate; `e.cancelAfterPause` is the
`_cancelled` value read by the check that follows it. -/
def bulkIterBody (e : BulkFrameEnv) (s : BulkJobState) : IterResult :=
  if e.cancelAtTop then .brk { s with status := .cancelled }
  else if e.cancelAfterPause then .brk { s with status := .cancelled }
  else if e.connected = false then
    .brk { s with status := .error
                  error_message := some "Camera disconnected during bulk capture" }
  else
    let s1 :=
      match e.outcome with
      | .ok => { s with successful_captures := s.successful_captures + 1 }
      | .falsy => { s with failed_captures := s.failed_captures + 1 }
      | .exc _ => { s with failed_captures := s.failed_captures + 1 }
    .cont { s1 with progress := s1.progress + 1 }

/-- State after the first `k` iterations of the bulk loop (a loop-iteration
boundary), starting from the freshly constructed job.  A break short-circuits
the remaining iterations, as `break` does. -/
def runBulkUpTo (req : BulkCaptureRequest) (env : Nat → BulkFrameEnv) : Nat → IterResult
  | 0 => .cont initBulkState
  | k + 1 =>
    match runBulkUpTo req env k with
    | .brk s => .brk s
    | .cont s => if k < req.count then bulkIterBody (env k) s else .cont s

/-- The `if self.status == "running": self.status = "completed"` block that
follows the loop. -/
def finalizeBulk (s : BulkJobState) : BulkJobState :=
  if s.status = .running then { s with status := .completed } else s

/-- `BulkCaptureJob.run`: the loop over all `count` frames followed by the
completion check.  (The `finally` block is modelled by `runBulkFull`.) -/
def runBulk (req : BulkCaptureRequest) (env : Nat → BulkFrameEnv) : BulkJobState :=
  finalizeBulk (runBulkUpTo req env req.count).state

/-- `run`'s `finally` block schedules `_cleanup_after_delay()` exactly once;
that coroutine sleeps 300 seconds and then removes the job id from the
registry.  `scheduledRemovals` lists the sleep durations of the removal
tasks scheduled by one execution of `run`. -/
structure BulkRunResult where
  final : BulkJobState
  scheduledRemovals : List Nat
deriving DecidableEq, Repr

/-- `BulkCaptureJob.run` including its `finally` block. -/
def runBulkFull (req : BulkCaptureRequest) (env : Nat → BulkFrameEnv) : BulkRunResult :=
  { final := runBulk req env
    scheduledRemovals := [300] }

/-- The fields of the `BulkCaptureStatus` response the claims are about.
`remaining` is computed with Python int subtraction, hence `Int`;
`estimated_completion` is an ISO timestamp, kept as the underlying epoch
value (`Rat`). -/
structure BulkCaptureStatus where
  status : JobStatus
  progress : Nat
  total : Nat
  remaining : Int
  current_interval : Rat
  estimated_completion : Option Rat
  error_message : Option String
  successful_captures : Nat
  failed_captures : Nat
deriving DecidableEq, Repr

/-- `BulkCaptureJob.get_status`, evaluated at wall-clock time `now`
(`datetime.now().timestamp()`). -/
def bulkGetStatus (req : BulkCaptureRequest) (s : BulkJobState) (now : Rat) :
    BulkCaptureStatus :=
  let remaining : Int := max 0 ((req.count : Int) - (s.progress : Int))
  let estimated_completion : Option Rat :=
    if s.status = .running ∧ 0 < remaining ∧ 0 < req.interval_seconds then
      some (now + (remaining : Rat) * req.interval_seconds)
    else none
  { status := s.status
    progress := s.progress
    total := req.count
    remaining := remaining
    current_interval := req.interval_seconds
    estimated_completion := estimated_completion
    error_message := s.error_message
    successful_captures := s.successful_captures
    failed_captures := s.failed_captures }

/-- `BulkCaptureJob._generate_image_name(sequence)`.  `sessionTarget` is
`session.target` for the job's session (fixed within one job); `ts` is the
`"%Y%m%d_%H%M%S"` timestamp taken at generation time. -/
def generateImageName (req : BulkCaptureRequest) (sessionTarget : List Char)
    (sequence : Nat) (ts : List Char) : List Char :=
  match req.base_name with
  | some base => base ++ '_' :: (pad3 sequence ++ '_' :: ts)
  | none =>
    match req.session_id with
    | some _ => sessionTarget ++ '_' :: (pad3 sequence ++ '_' :: ts)
    | none => 'b' :: 'u' :: 'l' :: 'k' :: '_' :: (pad3 sequence ++ '_' :: ts)

/-! ### Registry and control surface (bulk_capture_api.py) -/

/-- The module-level `active_jobs: Dict[str, BulkCaptureJob]`, as an
association list keyed by job id. -/
def Registry := List (String × BulkJobState)

instance : DecidableEq Registry := by unfold Registry; infer_instance

/-- Dictionary lookup `active_jobs.get(job_id)` / `job_id in active_jobs`. -/
def Registry.find (reg : Registry) (jid : String) : Option BulkJobState :=
  List.lookup jid reg

/-- Replace the state stored under `jid` (mutating the shared job object). -/
def Registry.setJob (reg : Registry) (jid : String) (s : BulkJobState) : Registry :=
  reg.map fun p => if p.1 = jid then (p.1, s) else p

/-- `del active_jobs[job_id]`. -/
def Registry.erase (reg : Registry) (jid : String) : Registry :=
  reg.filter fun p => p.1 ≠ jid

/-- `BulkCaptureJob.pause()`: sets the flag and overwrites `status`. -/
def BulkJobState.pause (s : BulkJobState) : BulkJobState :=
  { s with pausedFlag := true, status := .paused }

/-- `BulkCaptureJob.resume()`. -/
def BulkJobState.resume (s : BulkJobState) : BulkJobState :=
  { s with pausedFlag := false, status := .running }

/-- `BulkCaptureJob.cancel()`. -/
def BulkJobState.cancel (s : BulkJobState) : BulkJobState :=
  { s with cancelledFlag := true, status := .cancelled }

/-- An `HTTPException(status_code, detail)` raised by an endpoint. -/
structure HttpError where
  code : Nat
  detail : String
deriving DecidableEq, Repr

instance {ε α : Type} [DecidableEq ε] [DecidableEq α] : DecidableEq (Except ε α) :=
  fun x y =>
    match x, y with
    | .ok a, .ok b => if h : a = b then .isTrue (by rw [h]) else .isFalse (by simp [h])
    | .error a, .error b => if h : a = b then .isTrue (by rw [h]) else .isFalse (by simp [h])
    | .ok _, .error _ => .isFalse (by simp)
    | .error _, .ok _ => .isFalse (by simp)

/-- Outcome of a control endpoint: the response (or HTTP error) together
with the registry as the handler leaves it. -/
structure EndpointResult where
  response : Except HttpError String
  registry : Registry
deriving DecidableEq

/-- `POST /bulk-capture/{job_id}/pause` (`pause_bulk_capture`). -/
def pauseBulkCapture (reg : Registry) (jid : String) : EndpointResult :=
  match reg.find jid with
  | none => ⟨.error ⟨404, "Bulk capture job not found"⟩, reg⟩
  | some job =>
    if job.status ≠ .running then
      ⟨.error ⟨400, "Can only pause running jobs"⟩, reg⟩
    else
      ⟨.ok "Bulk capture paused", reg.setJob jid job.pause⟩

/-- `POST /bulk-capture/{job_id}/resume` (`resume_bulk_capture`). -/
def resumeBulkCapture (reg : Registry) (jid : String) : EndpointResult :=
  match reg.find jid with
  | none => ⟨.error ⟨404, "Bulk capture job not found"⟩, reg⟩
  | some job =>
    if job.status ≠ .paused then
      ⟨.error ⟨400, "Can only resume paused jobs"⟩, reg⟩
    else
      ⟨.ok "Bulk capture resumed", reg.setJob jid job.resume⟩

/-- `POST /bulk-capture/{job_id}/cancel` (`cancel_bulk_capture`): the guard
rejects only jobs whose status is already "completed" or "cancelled". -/
def cancelBulkCapture (reg : Registry) (jid : String) : EndpointResult :=
  match reg.find jid with
  | none => ⟨.error ⟨404, "Bulk capture job not found"⟩, reg⟩
  | some job =>
    if job.status = .completed ∨ job.status = .cancelled then
      ⟨.error ⟨400, "Job is already completed or cancelled"⟩, reg⟩
    else
      ⟨.ok "Bulk capture cancelled", reg.setJob jid job.cancel⟩

/-- `BulkCaptureService.pause_job` (bulk_capture_service.py): no transition
guard at all — any job found is paused. -/
def servicePauseJob (reg : Registry) (jid : String) : Registry × Bool :=
  match reg.find jid with
  | some job => (reg.setJob jid job.pause, true)
  | none => (reg, false)

/-- `BulkCaptureJob._cleanup_after_delay`, after its 300-second sleep:
`if self.job_id in active_jobs: del active_jobs[self.job_id]`. -/
def cleanupAfterDelay (reg : Registry) (jid : String) : Registry :=
  if (reg.find jid).isSome then reg.erase jid else reg

/-! ## Device gateway: `CameraService` (camera_service.py) -/

/-- The `CameraService` state: `self._camera` holds either no camera or a
`gp.Camera` object.  Object identity matters (connect replaces the object),
so handles are numbered by an allocation counter. -/
structure CameraServiceState where
  camera : Option Nat
  nextHandle : Nat
deriving DecidableEq, Repr

/-- Any handle the service holds was allocated earlier than the counter. -/
def CameraServiceState.wf (s : CameraServiceState) : Prop :=
  ∀ h, s.camera = some h → h < s.nextHandle

/-- `CameraService.is_connected()`: `self._camera is not None`. -/
def CameraServiceState.is_connected (s : CameraServiceState) : Bool :=
  s.camera.isSome

/-- `CameraService.connect()`.  It does not look at the current state: it
always constructs a fresh `gp.Camera()` and calls `.init()` on it.  `initOk`
is whether that `init` call succeeds.  On success the new handle replaces
whatever was there (returns `True`); on failure the handler sets
`self._camera = None` and re-raises. -/
def CameraServiceState.connect (s : CameraServiceState) (initOk : Bool) :
    CameraServiceState × Except String Bool :=
  let fresh := s.nextHandle
  if initOk then
    ({ camera := some fresh, nextHandle := fresh + 1 }, .ok true)
  else
    ({ camera := none, nextHandle := fresh + 1 }, .error "Failed to connect to camera")

/-! ## Calibration jobs: `CalibrationJob` (calibration_api.py) -/

/-- `CalibrationFrameType`. -/
inductive CalibrationFrameType
  | dark
  | bias
  | flat
  | flat_dark
deriving DecidableEq, Repr

/-- `CalibrationRequest` (pydantic model).  String fields that feed the
filename generator are `List Char`. -/
structure CalibrationRequest where
  frame_type : CalibrationFrameType
  count : Nat
  session_id : Option String
  exposure_time : Option (List Char)
  iso : Option (List Char)
  temperature_target : Option Rat
  target_adu : Option Nat
  base_name : Option (List Char)
  save_path : Option String
  interval_seconds : Rat
  delay_before_start : Rat
deriving DecidableEq, Repr

/-- The `Field(None, ge=10000, le=50000)` bound on `target_adu`, checked
only when the field is present. -/
def aduOk : Option Nat → Prop
  | some a => 10000 ≤ a ∧ a ≤ 50000
  | none => True

instance : ∀ o, Decidable (aduOk o)
  | some _ => by unfold aduOk; infer_instance
  | none => .isTrue trivial

/-- The field constraints pydantic enforces at request construction
(`createJob` time): `count` in (0, 500], `target_adu` in [10000, 50000] when
given, `interval_seconds` in [0.1, 60], `delay_before_start` in [0, 3600].
Nothing here looks at `exposure_time`. -/
def CalibrationRequest.pydanticValid (r : CalibrationRequest) : Prop :=
  0 < r.count ∧ r.count ≤ 500 ∧ aduOk r.target_adu ∧
  (1 : Rat) / 10 ≤ r.interval_seconds ∧ r.interval_seconds ≤ 60 ∧
  0 ≤ r.delay_before_start ∧ r.delay_before_start ≤ 3600

instance (r : CalibrationRequest) : Decidable r.pydanticValid := by
  unfold CalibrationRequest.pydanticValid
  infer_instance

/-- The string values `CalibrationJob.status` takes. -/
inductive CalStatus
  | pending
  | running
  | paused
  | completed
  | failed
  | cancelled
deriving DecidableEq, Repr

/-- Mutable attributes of a `CalibrationJob`.  `estimated_completion` is the
one attribute `__init__` never assigns: `none` means the attribute does not
exist on the object, so reading it raises `AttributeError`
(`_update_progress` only ever assigns concrete datetimes). -/
structure CalJobState where
  status : CalStatus
  error_message : Option String
  started_at : Option Rat
  completed_at : Option Rat
  completed_frames : Nat
  failed_frames : Nat
  captured_files : List (List Char)
  current_temperature : Option Rat
  estimated_completion : Option Rat
deriving DecidableEq, Repr

/-- `CalibrationJob.__init__`. -/
def initCalState : CalJobState :=
  { status := .pending
    error_message := none
    started_at := none
    completed_at := none
    completed_frames := 0
    failed_frames := 0
    captured_files := []
    current_temperature := none
    estimated_completion := none }

/-- `CalibrationJob._setup_frame_type`: resolve the settings dict or raise.
The bias and flat-ADU exposure helpers are the source's stubbed constants
("1/4000", "1/60"); they make no device call. -/
def setupFrameType (r : CalibrationRequest) : Except String (List (String × String)) :=
  let shutter : Except String (List (String × String)) :=
    match r.frame_type with
    | .dark =>
      match r.exposure_time with
      | none => .error "Exposure time required for dark frames"
      | some e => .ok [("shutter_speed", String.mk e)]
    | .bias => .ok [("shutter_speed", "1/4000")]
    | .flat =>
      match r.target_adu with
      | some _ => .ok [("shutter_speed", "1/60")]
      | none =>
        match r.exposure_time with
        | none => .error "Either target_adu or exposure_time required for flat frames"
        | some e => .ok [("shutter_speed", String.mk e)]
    | .flat_dark =>
      match r.exposure_time with
      | none => .error "Exposure time required for flat dark frames"
      | some e => .ok [("shutter_speed", String.mk e)]
  match shutter with
  | .error m => .error m
  | .ok settings =>
    match r.iso with
    | some i => .ok (settings ++ [("iso", String.mk i)])
    | none => .ok settings

/-- The family name used as the filename fallback base
(`self.request.frame_type.value`). -/
def CalibrationFrameType.value : CalibrationFrameType → List Char
  | .dark => ['d', 'a', 'r', 'k']
  | .bias => ['b', 'i', 'a', 's']
  | .flat => ['f', 'l', 'a', 't']
  | .flat_dark => ['f', 'l', 'a', 't', '_', 'd', 'a', 'r', 'k']

/-- `exposure.replace("/", "-").replace('"', "s")` — both replacements map
single characters, so they act charwise. -/
def exposureSafe (e : List Char) : List Char :=
  e.map fun c => if c = '/' then '-' else if c = '"' then 's' else c

/-- `CalibrationJob._generate_filename(frame_number)`.  `currentTemp` is
`self.current_temperature` at call time and `tempStr` is its `"%.1f"`
rendering (float formatting is abstract, its content is never inspected);
`ts` is the timestamp taken at generation time.  Note the Python truthiness
test `if self.current_temperature:` skips a temperature of exactly 0.0. -/
def calGenerateFilename (req : CalibrationRequest) (currentTemp : Option Rat)
    (tempStr : List Char) (ts : List Char) (frameNumber : Nat) : List Char :=
  let base := req.base_name.getD (req.frame_type.value ++ ['_', 'f', 'r', 'a', 'm', 'e'])
  let params : List (List Char) :=
    (match req.exposure_time with
     | some e => [['e', 'x', 'p'] ++ exposureSafe e]
     | none => []) ++
    (match req.iso with
     | some i => [['i', 's', 'o'] ++ i]
     | none => []) ++
    (match currentTemp with
     | some t => if t ≠ 0 then [['t', 'e', 'm', 'p'] ++ tempStr ++ ['C']] else []
     | none => [])
  let param_str := List.intercalate ['_'] params
  if param_str ≠ [] then
    base ++ '_' :: (param_str ++ '_' :: (ts ++ '_' :: 'f' :: pad3 frameNumber))
  else
    base ++ '_' :: (ts ++ '_' :: 'f' :: pad3 frameNumber)

/-- `CalibrationJob._update_progress()`: assigns `estimated_completion` only
when at least one frame has completed (and `started_at` is set); otherwise
the attribute is left as it was. -/
def calUpdateProgress (total completed : Nat) (started_at : Option Rat) (now : Rat)
    (attr : Option Rat) : Option Rat :=
  match started_at with
  | some t0 =>
    if 0 < completed then
      some (now + ((total - completed : Nat) : Rat) * ((now - t0) / (completed : Rat)))
    else attr
  | none => attr

/-- A call issued to the camera service, for tracing when device access
happens. -/
inductive DeviceCall
  | getStatus
  | updateSettings (settings : List (String × String))
  | capture (name : List Char)
deriving DecidableEq, Repr

/-- Oracle inputs for one iteration of `CalibrationJob._capture_loop`:
the `_should_stop` values read at the loop's two checkpoints, the
temperature the in-frame `get_status` reports (if any), the `"%.1f"`
rendering of the job's `current_temperature` at name-generation time, the
generation-time timestamp, the `datetime.now()` used by `_update_progress`,
and the capture outcome. -/
structure CalFrameEnv where
  stopAtTop : Bool
  stopAfterPause : Bool
  temperature : Option Rat
  tempStr : List Char
  ts : List Char
  now : Rat
  outcome : CaptureOutcome
deriving DecidableEq, Repr

/-- Result of one calibration-loop iteration.  `fatal` is the re-raise of a
capture exception whose lowercased message contains "camera disconnected":
it propagates out of the loop into `run`'s outer handler. -/
inductive CalIterResult
  | cont (s : CalJobState)
  | brk (s : CalJobState)
  | fatal (s : CalJobState) (msg : String)
deriving DecidableEq, Repr

/-- The state a `CalIterResult` carries. -/
def CalIterResult.state : CalIterResult → CalJobState
  | .cont s => s
  | .brk s => s
  | .fatal s _ => s

/-- Substring scan (`pat in l`): does `pat` occur contiguously in `l`? -/
def containsSub (pat : List Char) : List Char → Bool
  | [] => pat.isEmpty
  | c :: rest => List.isPrefixOf pat (c :: rest) || containsSub pat rest

/-- The test `"camera disconnected" in str(e).lower()`. -/
def mentionsDisconnect (msg : String) : Bool :=
  containsSub
    ['c', 'a', 'm', 'e', 'r', 'a', ' ', 'd', 'i', 's', 'c', 'o', 'n', 'n', 'e',
      'c', 't', 'e', 'd']
    (msg.data.map Char.toLower)

/-- One iteration of `CalibrationJob._capture_loop` for frame `i`
(0-based).  `_should_stop` being observed true means a `cancel()` call ran,
which also wrote `status = "cancelled"`; that write is applied at the
observation point.  Inside the try-block, `_generate_filename` runs first
(using the temperature of the previous frame), then `_capture_single_frame`
issues `get_status` (updating `current_temperature`) and `capture`.  A
capture exception increments `failed_frames` and only propagates when its
message mentions a disconnect; any result that is returned (truthy or not)
counts the frame as completed. -/
def calIterBody (req : CalibrationRequest) (total : Nat) (e : CalFrameEnv) (i : Nat)
    (s : CalJobState) : CalIterResult :=
  if e.stopAtTop then .brk { s with status := .cancelled }
  else if e.stopAfterPause then .brk { s with status := .cancelled }
  else
    let filename := calGenerateFilename req s.current_temperature e.tempStr e.ts (i + 1)
    let sTemp :=
      match e.temperature with
      | some t => { s with current_temperature := some t }
      | none => s
    match e.outcome with
    | .exc msg =>
      let sFail := { sTemp with failed_frames := sTemp.failed_frames + 1 }
      if mentionsDisconnect msg then .fatal sFail msg else .cont sFail
    | _ =>
      let sDone :=
        { sTemp with
            completed_frames := sTemp.completed_frames + 1
            captured_files := sTemp.captured_files ++ [filename] }
      .cont
        { sDone with
            estimated_completion :=
              calUpdateProgress total sDone.completed_frames sDone.started_at e.now
                sDone.estimated_completion }

/-- State after the first `k` iterations of `_capture_loop`, starting from
state `s0` (the state on loop entry). -/
def calLoopUpTo (req : CalibrationRequest) (env : Nat → CalFrameEnv) (s0 : CalJobState) :
    Nat → CalIterResult
  | 0 => .cont s0
  | k + 1 =>
    match calLoopUpTo req env s0 k with
    | .brk s => .brk s
    | .fatal s m => .fatal s m
    | .cont s => if k < req.count then calIterBody req req.count (env k) k s else .cont s

/-- What one execution of `CalibrationJob.run` produced: the final job
state, whether the job ever entered status "running", the camera-service
calls it issued in order, and the registry-removal tasks it scheduled
(`run`'s `finally` only calls `_cleanup_camera_settings`; it never schedules
a removal, so this list is always empty). -/
structure CalRunResult where
  final : CalJobState
  everRunning : Bool
  deviceCalls : List DeviceCall
  scheduledRemovals : List Nat
deriving DecidableEq, Repr

/-- `CalibrationJob.run`.  `connected` is what `_validate_camera_ready`'s
`get_status` reports; `t0` is `datetime.now()` at start, `tEnd` at
completion; `finalStop` is the `_should_stop` value read by the
finalization check after a normally-exhausted loop (true only if a
`cancel()` ran, which also wrote status "cancelled"). -/
def calRun (req : CalibrationRequest) (connected : Bool) (env : Nat → CalFrameEnv)
    (finalStop : Bool) (t0 tEnd : Rat) : CalRunResult :=
  let s1 : CalJobState := { initCalState with status := .running, started_at := some t0 }
  if ¬connected then
    { final := { s1 with status := .failed
                         error_message := some "Camera must be connected to start calibration" }
      everRunning := true
      deviceCalls := [.getStatus]
      scheduledRemovals := [] }
  else
    match setupFrameType req with
    | .error msg =>
      { final := { s1 with status := .failed, error_message := some msg }
        everRunning := true
        deviceCalls := [.getStatus]
        scheduledRemovals := [] }
    | .ok settings =>
      let loopCalls : List DeviceCall :=
        (List.range req.count).foldr
          (fun i acc =>
            match calLoopUpTo req env s1 i with
            | .cont s =>
              if (env i).stopAtTop ∨ (env i).stopAfterPause then acc
              else .getStatus ::
                .capture (calGenerateFilename req s.current_temperature (env i).tempStr
                  (env i).ts (i + 1)) :: acc
            | _ => acc)
          []
      match calLoopUpTo req env s1 req.count with
      | .fatal s msg =>
        { final := { s with status := .failed, error_message := some msg }
          everRunning := true
          deviceCalls := .getStatus :: .updateSettings settings :: loopCalls
          scheduledRemovals := [] }
      | .brk s =>
        { final := s
          everRunning := true
          deviceCalls := .getStatus :: .updateSettings settings :: loopCalls
          scheduledRemovals := [] }
      | .cont s =>
        let sFinal :=
          if finalStop then { s with status := .cancelled }
          else { s with status := .completed, completed_at := some tEnd }
        { final := sFinal
          everRunning := true
          deviceCalls := .getStatus :: .updateSettings settings :: loopCalls
          scheduledRemovals := [] }

/-- The fields of `CalibrationJobStatus` the claims are about.
`percentage` comes from the `progress` dict. -/
structure CalibrationJobStatus where
  status : CalStatus
  percentage : Rat
  total_frames : Nat
  completed_frames : Nat
  failed_frames : Nat
  estimated_completion : Rat
  error_message : Option String
  captured_files : List (List Char)
deriving DecidableEq, Repr

/-- `CalibrationJob.get_status()`.  Constructing the response reads
`self.estimated_completion`; if `__init__` ran but `_update_progress` never
assigned the attribute, that read raises `AttributeError`. -/
def calGetStatus (req : CalibrationRequest) (s : CalJobState) :
    Except String CalibrationJobStatus :=
  match s.estimated_completion with
  | none => .error "AttributeError: estimated_completion"
  | some eta =>
    .ok
      { status := s.status
        percentage :=
          if 0 < req.count then ((s.completed_frames : Rat) / (req.count : Rat)) * 100
          else 0
        total_frames := req.count
        completed_frames := s.completed_frames
        failed_frames := s.failed_frames
        estimated_completion := eta
        error_message := s.error_message
        captured_files := s.captured_files }

/-- `POST /calibration/start` (`start_calibration`): the job is constructed
and stored, its task is scheduled (`asyncio.create_task`) but cannot run
before the handler finishes (the handler never awaits afterwards), and the
response is built by calling `job.get_status()` on the freshly constructed
state. -/
def startCalibration (req : CalibrationRequest) : Except String CalibrationJobStatus :=
  calGetStatus req initCalState

/-! ## Helper lemmas about the bulk loop -/

/-- One iteration either leaves the tallies untouched (a break) or counts
exactly one frame: progress up by one, exactly one of the two outcome
counters up by one. -/
theorem bulkIterBody_counts (e : BulkFrameEnv) (s : BulkJobState) :
    ((bulkIterBody e s).state.progress = s.progress ∧
     (bulkIterBody e s).state.successful_captures + (bulkIterBody e s).state.failed_captures
       = s.successful_captures + s.failed_captures) ∨
    ((bulkIterBody e s).state.progress = s.progress + 1 ∧
     (bulkIterBody e s).state.successful_captures + (bulkIterBody e s).state.failed_captures
       = s.successful_captures + s.failed_captures + 1) := by
  obtain ⟨ct, cp, cn, out⟩ := e
  cases ct <;> cases cp <;> cases cn <;> cases out <;>
    simp [bulkIterBody, IterResult.state] <;> omega

/-- A break short-circuits all later boundaries. -/
theorem runBulkUpTo_brk_stable (req : BulkCaptureRequest) (env : Nat → BulkFrameEnv)
    (s : BulkJobState) (m : Nat) (h : runBulkUpTo req env m = .brk s) :
    ∀ k, runBulkUpTo req env (m + k) = .brk s := by
  intro k
  induction k with
  | zero => exact h
  | succ k ih =>
    show runBulkUpTo req env (m + k + 1) = _
    simp [runBulkUpTo, ih]

/-- Under an environment whose first `k` iterations observe no cancellation
and a connected camera, the `k`-th boundary is reached still running, with
one frame tallied per iteration. -/
theorem runBulkUpTo_good (req : BulkCaptureRequest) (env : Nat → BulkFrameEnv) :
    ∀ k, k ≤ req.count →
      (∀ i, i < k → (env i).cancelAtTop = false ∧ (env i).cancelAfterPause = false ∧
        (env i).connected = true) →
      ∃ s, runBulkUpTo req env k = .cont s ∧ s.status = .running ∧ s.progress = k ∧
        s.successful_captures + s.failed_captures = k ∧ s.error_message = none := by
  intro k
  induction k with
  | zero => exact fun _ _ => ⟨initBulkState, rfl, rfl, rfl, rfl, rfl⟩
  | succ k ih =>
    intro hk hgood
    obtain ⟨s, hs, hstat, hprog, hsum, herr⟩ :=
      ih (Nat.le_of_succ_le hk) (fun i hi => hgood i (Nat.lt_succ_of_lt hi))
    obtain ⟨h1, h2, h3⟩ := hgood k (Nat.lt_succ_self k)
    have hklt : k < req.count := hk
    refine ⟨(bulkIterBody (env k) s).state, ?_, ?_⟩
    · simp only [runBulkUpTo, hs, if_pos hklt]
      cases ho : (env k).outcome <;>
        simp [bulkIterBody, h1, h2, h3, ho, IterResult.state]
    · cases ho : (env k).outcome <;>
        simp [bulkIterBody, h1, h2, h3, ho, IterResult.state, hstat, hprog, herr] <;>
        omega

/-! ## C1 -/

/-- C1: for every valid bulk-capture spec with `frameCount = N`, a job that
runs to natural completion — the loop's cancellation checkpoints never
observe a cancel and the connection check always succeeds — ends in status
"completed" with `progress = N` and
`successful_captures + failed_captures = N`. -/
theorem bulk_run_natural_completion (req : BulkCaptureRequest) (env : Nat → BulkFrameEnv)
    (hvalid : req.pydanticValid)
    (hgood : ∀ i, i < req.count → (env i).cancelAtTop = false ∧
      (env i).cancelAfterPause = false ∧ (env i).connected = true) :
    (runBulk req env).status = .completed ∧ (runBulk req env).progress = req.count ∧
      (runBulk req env).successful_captures + (runBulk req env).failed_captures = req.count := by
  obtain ⟨s, hs, hstat, hprog, hsum, _⟩ :=
    runBulkUpTo_good req env req.count (le_refl _) hgood
  unfold runBulk
  rw [hs]
  simp [IterResult.state, finalizeBulk, hstat, hprog, hsum]

/-- Witness for C1 at a concrete spec: three frames, zero interval, an
always-connected always-succeeding gateway. -/
theorem bulk_run_natural_completion_witness :
    (runBulk ⟨3, 0, none, none⟩ (fun _ => ⟨false, false, true, .ok⟩)).status = .completed ∧
      (runBulk ⟨3, 0, none, none⟩ (fun _ => ⟨false, false, true, .ok⟩)).progress = 3 ∧
      (runBulk ⟨3, 0, none, none⟩ (fun _ => ⟨false, false, true, .ok⟩)).successful_captures +
        (runBulk ⟨3, 0, none, none⟩ (fun _ => ⟨false, false, true, .ok⟩)).failed_captures = 3 :=
  bulk_run_natural_completion ⟨3, 0, none, none⟩ (fun _ => ⟨false, false, true, .ok⟩)
    (by constructor <;> norm_num) (fun i _ => ⟨rfl, rfl, rfl⟩)

/-! ## C10 -/

/-- C10: at every loop-iteration boundary of a bulk job, and in its terminal
state, `successful_captures + failed_captures = progress` and
`progress ≤ count`; consequently the reported `remaining` equals
`count - progress` and is never negative. -/
theorem bulk_counts_invariant (req : BulkCaptureRequest) (env : Nat → BulkFrameEnv)
    (k : Nat) (now : Rat) :
    ((runBulkUpTo req env k).state.successful_captures +
        (runBulkUpTo req env k).state.failed_captures
        = (runBulkUpTo req env k).state.progress ∧
      (runBulkUpTo req env k).state.progress ≤ req.count ∧
      (bulkGetStatus req (runBulkUpTo req env k).state now).remaining
        = (req.count : Int) - ((runBulkUpTo req env k).state.progress : Int)) ∧
    ((runBulk req env).successful_captures + (runBulk req env).failed_captures
        = (runBulk req env).progress ∧
      (runBulk req env).progress ≤ req.count ∧
      0 ≤ (bulkGetStatus req (runBulk req env) now).remaining) := by
  have hinv : ∀ m, (runBulkUpTo req env m).state.successful_captures +
      (runBulkUpTo req env m).state.failed_captures = (runBulkUpTo req env m).state.progress ∧
      (runBulkUpTo req env m).state.progress ≤ m ∧
      (runBulkUpTo req env m).state.progress ≤ req.count := by
    intro m
    induction m with
    | zero => simp [runBulkUpTo, IterResult.state, initBulkState]
    | succ m ih =>
      cases hres : runBulkUpTo req env m with
      | brk s =>
        rw [hres] at ih
        have : runBulkUpTo req env (m + 1) = .brk s := runBulkUpTo_brk_stable req env s m hres 1
        rw [this]
        simp [IterResult.state] at ih ⊢
        omega
      | cont s =>
        rw [hres] at ih
        simp only [IterResult.state] at ih
        by_cases hm : m < req.count
        · have hstep : runBulkUpTo req env (m + 1) = bulkIterBody (env m) s := by
            simp [runBulkUpTo, hres, hm]
          rw [hstep]
          rcases bulkIterBody_counts (env m) s with ⟨hp, hc⟩ | ⟨hp, hc⟩ <;> rw [hp, hc] <;> omega
        · have hstep : runBulkUpTo req env (m + 1) = .cont s := by
            simp [runBulkUpTo, hres, hm]
          rw [hstep]
          simp only [IterResult.state]
          omega
  have hfin : (runBulk req env).successful_captures = (runBulkUpTo req env req.count).state.successful_captures ∧
      (runBulk req env).failed_captures = (runBulkUpTo req env req.count).state.failed_captures ∧
      (runBulk req env).progress = (runBulkUpTo req env req.count).state.progress := by
    unfold runBulk finalizeBulk
    by_cases h : (runBulkUpTo req env req.count).state.status = JobStatus.running <;> simp [h]
  obtain ⟨ha, hb, hc⟩ := hinv k
  obtain ⟨ha', hb', hc'⟩ := hinv req.count
  obtain ⟨hf1, hf2, hf3⟩ := hfin
  refine ⟨⟨ha, hc, ?_⟩, ⟨by rw [hf1, hf2, hf3]; exact ha', by rw [hf3]; exact hc', ?_⟩⟩
  · simp only [bulkGetStatus]
    omega
  · simp only [bulkGetStatus]
    omega

/-! ## C2 -/

/-- A five-frame spec (zero interval). -/
def fiveFrameReq : BulkCaptureRequest := ⟨5, 0, none, none⟩

/-- A gateway whose connection checks all succeed but whose 3rd capture
call raises the not-connected error (`CameraService.capture` wraps it as
`CameraCaptureError("Failed to capture image")`). -/
def thirdCaptureRaisesEnv : Nat → BulkFrameEnv := fun i =>
  ⟨false, false, true, if i = 2 then .exc "Failed to capture image" else .ok⟩

/-- Counterexample to C2: a capture call that raises the not-connected
error is swallowed by the loop's per-frame exception handler and tallied as
a failed frame; the job runs all 5 frames and ends "completed" with no
error message — not "error" with `progress < 5` as the claim requires. -/
theorem bulk_capture_exception_not_fatal_cex :
    (runBulk fiveFrameReq thirdCaptureRaisesEnv).status = .completed ∧
      (runBulk fiveFrameReq thirdCaptureRaisesEnv).progress = 5 ∧
      (runBulk fiveFrameReq thirdCaptureRaisesEnv).failed_captures = 1 ∧
      (runBulk fiveFrameReq thirdCaptureRaisesEnv).error_message = none := by
  decide

/-- C2 as amended: the one disconnect condition that aborts a bulk job is
the `is_connected()` check at the top of an iteration.  If the first `k`
iterations run normally and the check at iteration `k` reports
disconnected, the job stops immediately with status "error",
`error_message` set, and `progress = k < count`.  (A capture call that
raises, including with a not-connected error, is instead tallied in
`failed_captures` and the loop continues — see the counterexample.) -/
theorem bulk_disconnect_abort (req : BulkCaptureRequest) (env : Nat → BulkFrameEnv)
    (k : Nat) (hk : k < req.count)
    (hgood : ∀ i, i < k → (env i).cancelAtTop = false ∧ (env i).cancelAfterPause = false ∧
      (env i).connected = true)
    (hc1 : (env k).cancelAtTop = false) (hc2 : (env k).cancelAfterPause = false)
    (hdisc : (env k).connected = false) :
    (runBulk req env).status = .error ∧
      (runBulk req env).error_message = some "Camera disconnected during bulk capture" ∧
      (runBulk req env).progress = k ∧ (runBulk req env).progress < req.count := by
  obtain ⟨s, hs, hstat, hprog, _, _⟩ :=
    runBulkUpTo_good req env k (Nat.le_of_lt hk) hgood
  have hstep : runBulkUpTo req env (k + 1)
      = .brk { s with status := .error
                      error_message := some "Camera disconnected during bulk capture" } := by
    simp [runBulkUpTo, hs, hk, bulkIterBody, hc1, hc2, hdisc]
  have hrest : runBulkUpTo req env req.count
      = .brk { s with status := .error
                      error_message := some "Camera disconnected during bulk capture" } := by
    have := runBulkUpTo_brk_stable req env _ (k + 1) hstep (req.count - (k + 1))
    rwa [Nat.add_sub_cancel' (Nat.succ_le_of_lt hk)] at this
  unfold runBulk
  rw [hrest]
  simp [IterResult.state, finalizeBulk, hprog, hk]

/-- A gateway that is connected for the first two frames and disconnected
from the 3rd iteration's check on. -/
def disconnectAtThirdEnv : Nat → BulkFrameEnv := fun i =>
  ⟨false, false, decide (i < 2), .ok⟩

/-- Witness for the amended C2: five frames, the connection check fails at
the 3rd iteration — the job ends "error" with the message set and
`progress = 2 < 5`. -/
theorem bulk_disconnect_abort_witness :
    (runBulk fiveFrameReq disconnectAtThirdEnv).status = .error ∧
      (runBulk fiveFrameReq disconnectAtThirdEnv).error_message
        = some "Camera disconnected during bulk capture" ∧
      (runBulk fiveFrameReq disconnectAtThirdEnv).progress = 2 ∧
      (runBulk fiveFrameReq disconnectAtThirdEnv).progress < 5 :=
  bulk_disconnect_abort fiveFrameReq disconnectAtThirdEnv 2 (by decide)
    (fun i hi => ⟨rfl, rfl, by simp [disconnectAtThirdEnv]; omega⟩)
    rfl rfl (by decide)

/-! ## C3 -/

/-- A dark-frame calibration spec with no exposure time. -/
def darkNoExposureReq : CalibrationRequest :=
  { frame_type := .dark
    count := 20
    session_id := none
    exposure_time := none
    iso := none
    temperature_target := none
    target_adu := none
    base_name := none
    save_path := none
    interval_seconds := 1
    delay_before_start := 0 }

/-- A quiet loop environment: no stop requests, successful captures. -/
def quietCalEnv : Nat → CalFrameEnv := fun _ => ⟨false, false, none, [], [], 0, .ok⟩

/-- Counterexample to C3: the dark spec with no exposure time passes all of
the creation-time (pydantic) validation, and the job then *does* enter
status "running" and issues a device call (`_validate_camera_ready`'s
`get_status`) before the missing-exposure check raises inside the running
task, which ends "failed". -/
theorem cal_missing_exposure_accepted_at_creation_cex :
    darkNoExposureReq.pydanticValid ∧
      (calRun darkNoExposureReq true quietCalEnv false 0 0).everRunning = true ∧
      (calRun darkNoExposureReq true quietCalEnv false 0 0).deviceCalls
        = [.getStatus] ∧
      (calRun darkNoExposureReq true quietCalEnv false 0 0).final.status = .failed ∧
      (calRun darkNoExposureReq true quietCalEnv false 0 0).final.error_message
        = some "Exposure time required for dark frames" := by
  refine ⟨?_, rfl, rfl, rfl, rfl⟩
  unfold CalibrationRequest.pydanticValid darkNoExposureReq
  norm_num [aduOk]

/-- C3 as amended: a dark or flat-dark spec without `exposure_time` is not
rejected by any creation-time validation; the rejection happens inside the
already-running task — `run` sets status "running", `_validate_camera_ready`
issues a device `get_status` call, and only then `_setup_frame_type` raises,
leaving the job "failed" with the error recorded. -/
theorem cal_missing_exposure_fails_in_task (req : CalibrationRequest)
    (env : Nat → CalFrameEnv) (finalStop : Bool) (t0 tEnd : Rat)
    (hft : req.frame_type = .dark ∨ req.frame_type = .flat_dark)
    (hexp : req.exposure_time = none) :
    (calRun req true env finalStop t0 tEnd).everRunning = true ∧
      (calRun req true env finalStop t0 tEnd).final.status = .failed ∧
      (calRun req true env finalStop t0 tEnd).final.error_message.isSome = true ∧
      (calRun req true env finalStop t0 tEnd).deviceCalls = [.getStatus] := by
  have hsetup : ∃ m, setupFrameType req = .error m := by
    rcases hft with h | h
    · exact ⟨"Exposure time required for dark frames", by simp [setupFrameType, h, hexp]⟩
    · exact ⟨"Exposure time required for flat dark frames",
        by simp [setupFrameType, h, hexp]⟩
  obtain ⟨m, hm⟩ := hsetup
  simp [calRun, hm]

/-- Witness for the amended C3 at the concrete dark spec. -/
theorem cal_missing_exposure_fails_in_task_witness :
    (calRun darkNoExposureReq true quietCalEnv false 0 0).everRunning = true ∧
      (calRun darkNoExposureReq true quietCalEnv false 0 0).final.status = .failed ∧
      (calRun darkNoExposureReq true quietCalEnv false 0 0).final.error_message.isSome
        = true ∧
      (calRun darkNoExposureReq true quietCalEnv false 0 0).deviceCalls = [.getStatus] :=
  cal_missing_exposure_fails_in_task darkNoExposureReq quietCalEnv false 0 0
    (Or.inl rfl) rfl

/-! ## C9 -/

/-- C9: `__init__` never assigns `estimated_completion`, so on a freshly
created calibration job every `get_status()` call — in particular the one
the start endpoint makes to build its response — raises `AttributeError`. -/
theorem cal_fresh_get_status_attribute_error :
    initCalState.estimated_completion = none ∧
      (∀ req, calGetStatus req initCalState
        = .error "AttributeError: estimated_completion") ∧
      (∀ req, startCalibration req
        = .error "AttributeError: estimated_completion") :=
  ⟨rfl, fun _ => rfl, fun _ => rfl⟩

/-! ## C6 -/

/-- A bias-frame calibration spec (bias frames need no extra fields). -/
def biasReq : CalibrationRequest :=
  { frame_type := .bias
    count := 3
    session_id := none
    exposure_time := none
    iso := none
    temperature_target := none
    target_adu := none
    base_name := none
    save_path := none
    interval_seconds := 1
    delay_before_start := 0 }

/-- Counterexample to C6: a calibration job that runs to natural completion
schedules no registry removal at all — `CalibrationJob.run`'s `finally`
block only resets camera settings — so "exactly one scheduled removal per
job, regardless of outcome" fails and finished calibration jobs stay in the
registry indefinitely. -/
theorem cal_no_removal_scheduled_cex :
    (calRun biasReq true quietCalEnv false 0 1).final.status = .completed ∧
      (calRun biasReq true quietCalEnv false 0 1).scheduledRemovals = [] := by
  decide

/-- Lookup after deletion finds nothing. -/
theorem find_erase (reg : Registry) (jid : String) :
    Registry.find (Registry.erase reg jid) jid = none := by
  induction reg with
  | nil => rfl
  | cons p t ih =>
    obtain ⟨k, v⟩ := p
    by_cases h : k = jid
    · have hdrop : Registry.erase ((k, v) :: t) jid = Registry.erase t jid := by
        simp [Registry.erase, List.filter_cons, h]
      rw [hdrop]
      exact ih
    · have hkeep : Registry.erase ((k, v) :: t) jid = (k, v) :: Registry.erase t jid := by
        simp [Registry.erase, List.filter_cons, h]
      have hne : (jid == k) = false := beq_eq_false_iff_ne.mpr (Ne.symm h)
      rw [hkeep]
      show List.lookup jid ((k, v) :: Registry.erase t jid) = none
      rw [List.lookup_cons, hne]
      exact ih

/-- C6 as amended: every execution of the bulk `run` schedules exactly one
removal task, delayed by the fixed 300-second retention window, and once
that task fires the job id is absent from the registry; calibration runs
schedule no removal — calibration jobs are never evicted. -/
theorem cleanup_scheduling :
    (∀ req env, (runBulkFull req env).scheduledRemovals = [300]) ∧
      (∀ req connected env finalStop t0 tEnd,
        (calRun req connected env finalStop t0 tEnd).scheduledRemovals = []) ∧
      (∀ (reg : Registry) jid, Registry.find (cleanupAfterDelay reg jid) jid = none) := by
  refine ⟨fun _ _ => rfl, ?_, ?_⟩
  · intro req connected env finalStop t0 tEnd
    unfold calRun
    split
    · rfl
    · split
      · rfl
      · dsimp only
        cases calLoopUpTo req env
            { initCalState with status := CalStatus.running, started_at := some t0 }
            req.count <;> rfl
  · intro reg jid
    unfold cleanupAfterDelay
    by_cases h : (Registry.find reg jid).isSome
    · rw [if_pos h]
      exact find_erase reg jid
    · rw [if_neg h]
      exact Option.not_isSome_iff_eq_none.mp h

/-! ## C5 -/

/-- A three-frame spec with a one-second interval. -/
def threeFrameIntervalReq : BulkCaptureRequest := ⟨3, 1, none, none⟩

/-- Counterexample to C5, in both directions the claim fails: a freshly
started bulk job (zero frames completed) already reports a non-null eta,
and a calibration `_update_progress` at `remaining == 0` assigns
`estimated_completion = now`, not null. -/
theorem eta_nonnull_before_first_frame_cex :
    initBulkState.progress = 0 ∧
      (bulkGetStatus threeFrameIntervalReq initBulkState 0).estimated_completion
        = some 3 ∧
      calUpdateProgress 5 5 (some 0) 10 none = some 10 := by
  refine ⟨rfl, ?_, ?_⟩
  · norm_num [bulkGetStatus, threeFrameIntervalReq, initBulkState]
  · norm_num [calUpdateProgress]

/-- C5 as amended: the bulk eta is non-null exactly when the job is
running, frames remain, and the configured interval is positive — it does
not wait for a first completed frame — and it then equals
`now + remaining * interval`.  The calibration eta is assigned only by
`_update_progress`, which does nothing before the first completed frame and
at `completed == total` assigns `now` (non-null) because the remaining
count is zero. -/
theorem eta_characterization :
    (∀ (req : BulkCaptureRequest) (s : BulkJobState) (now : Rat),
      (bulkGetStatus req s now).estimated_completion ≠ none ↔
        s.status = .running ∧ s.progress < req.count ∧ 0 < req.interval_seconds) ∧
    (∀ (req : BulkCaptureRequest) (s : BulkJobState) (now : Rat),
      s.status = .running → s.progress < req.count → 0 < req.interval_seconds →
      (bulkGetStatus req s now).estimated_completion
        = some (now + (((req.count : Int) - (s.progress : Int) : Int) : Rat)
            * req.interval_seconds)) ∧
    (∀ (total : Nat) (t0 now : Rat) (attr : Option Rat), 0 < total →
      calUpdateProgress total total (some t0) now attr = some now) ∧
    (∀ (total : Nat) (t0 now : Rat) (attr : Option Rat),
      calUpdateProgress total 0 (some t0) now attr = attr) := by
  refine ⟨?_, ?_, ?_, ?_⟩
  · intro req s now
    simp only [bulkGetStatus]
    split_ifs with h
    · constructor
      · intro _
        exact ⟨h.1, by have := h.2.1; omega, h.2.2⟩
      · intro _
        exact Option.some_ne_none _
    · constructor
      · intro hne
        exact absurd rfl hne
      · rintro ⟨h1, h2, h3⟩
        exact absurd ⟨h1, by omega, h3⟩ h
  · intro req s now h1 h2 h3
    have hmax : max 0 ((req.count : Int) - (s.progress : Int))
        = (req.count : Int) - (s.progress : Int) := by omega
    simp only [bulkGetStatus]
    rw [if_pos ⟨h1, by omega, h3⟩, hmax]
  · intro total t0 now attr htot
    simp only [calUpdateProgress, if_pos htot]
    simp [Nat.sub_self]
  · intro total t0 now attr
    simp [calUpdateProgress]

/-- Witness for the amended C5: a calibration update at
`completed == total == 5` yields eta `now = 10`. -/
theorem eta_characterization_witness :
    0 < 5 ∧ calUpdateProgress 5 5 (some 0) 10 none = some 10 :=
  ⟨by norm_num, eta_characterization.2.2.1 5 0 10 none (by norm_num)⟩

/-! ## C7 -/

/-- Counterexample to C7: on a connected service (handle 0), `connect()` is
not a no-op — a successful re-init replaces the handle with a fresh object,
and a failing re-init leaves the service disconnected and raises. -/
theorem connect_not_noop_cex :
    CameraServiceState.is_connected ⟨some 0, 1⟩ = true ∧
      (CameraServiceState.connect ⟨some 0, 1⟩ true).1 ≠ ⟨some 0, 1⟩ ∧
      (CameraServiceState.connect ⟨some 0, 1⟩ true).1.camera = some 1 ∧
      (CameraServiceState.connect ⟨some 0, 1⟩ false).1.camera = none ∧
      (CameraServiceState.connect ⟨some 0, 1⟩ false).2
        = .error "Failed to connect to camera" := by
  decide

/-- C7 as amended: `connect()` never checks the current connection.  On a
connected service, a successful re-init returns `True` and stays connected
but to a freshly constructed camera object (the old handle is dropped
without `exit()`); a failing re-init sets the handle to `None` — leaving a
previously connected service disconnected — and propagates the error. -/
theorem connect_replaces_handle (s : CameraServiceState) (hwf : s.wf)
    (hconn : s.is_connected = true) :
    ((s.connect true).1.is_connected = true ∧ (s.connect true).2 = .ok true ∧
      (s.connect true).1.camera ≠ s.camera) ∧
    ((s.connect false).1.is_connected = false ∧
      (s.connect false).2 = .error "Failed to connect to camera") := by
  obtain ⟨h, hcam⟩ : ∃ h, s.camera = some h := by
    cases hc : s.camera
    · simp [CameraServiceState.is_connected, hc] at hconn
    · exact ⟨_, rfl⟩
  have hlt := hwf h hcam
  refine ⟨⟨rfl, rfl, ?_⟩, rfl, rfl⟩
  simp only [CameraServiceState.connect, if_pos, hcam]
  intro hcontra
  have : s.nextHandle = h := by
    injection hcontra
  omega

/-- Witness for the amended C7 at the concrete connected state
(handle 0, next allocation 1). -/
theorem connect_replaces_handle_witness :
    ((CameraServiceState.connect ⟨some 0, 1⟩ true).1.is_connected = true ∧
      (CameraServiceState.connect ⟨some 0, 1⟩ true).2 = .ok true ∧
      (CameraServiceState.connect ⟨some 0, 1⟩ true).1.camera
        ≠ (⟨some 0, 1⟩ : CameraServiceState).camera) ∧
    ((CameraServiceState.connect ⟨some 0, 1⟩ false).1.is_connected = false ∧
      (CameraServiceState.connect ⟨some 0, 1⟩ false).2
        = .error "Failed to connect to camera") :=
  connect_replaces_handle ⟨some 0, 1⟩
    (fun h hh => by have h1 := Option.some.inj hh; show h < 1; omega) rfl

/-! ## C4 -/

/-- A registry holding one job whose run ended in status "error". -/
def erroredJobReg : Registry := [("j", { initBulkState with status := .error })]

/-- Counterexample to C4: cancelling a job in terminal status "error" — not
a state from which cancel is legal — is accepted (no InvalidTransition
error) and overwrites the job's terminal status with "cancelled". -/
theorem cancel_error_job_allowed_cex :
    (cancelBulkCapture erroredJobReg "j").response = .ok "Bulk capture cancelled" ∧
      Registry.find (cancelBulkCapture erroredJobReg "j").registry "j"
        = some { initBulkState with status := .cancelled, cancelledFlag := true } := by
  decide

/-- C4 as amended: for a job present in the registry, the pause endpoint
rejects any non-running job and the resume endpoint any non-paused job with
a 400 error, leaving the registry untouched; the cancel endpoint rejects
only "completed"/"cancelled" — a job in status "error" is cancelled and its
status overwritten — and the service-layer `pause_job` applies the pause
with no transition check at all. -/
theorem bulk_control_transition_guards (reg : Registry) (jid : String)
    (j : BulkJobState) (hfind : reg.find jid = some j) :
    (j.status ≠ .running →
      pauseBulkCapture reg jid
        = ⟨.error ⟨400, "Can only pause running jobs"⟩, reg⟩) ∧
    (j.status ≠ .paused →
      resumeBulkCapture reg jid
        = ⟨.error ⟨400, "Can only resume paused jobs"⟩, reg⟩) ∧
    (j.status = .completed ∨ j.status = .cancelled →
      cancelBulkCapture reg jid
        = ⟨.error ⟨400, "Job is already completed or cancelled"⟩, reg⟩) ∧
    (j.status = .error →
      cancelBulkCapture reg jid
        = ⟨.ok "Bulk capture cancelled", reg.setJob jid j.cancel⟩) ∧
    servicePauseJob reg jid = (reg.setJob jid j.pause, true) := by
  refine ⟨?_, ?_, ?_, ?_, ?_⟩
  · intro h
    simp [pauseBulkCapture, hfind, h]
  · intro h
    simp [resumeBulkCapture, hfind, h]
  · intro h
    simp [cancelBulkCapture, hfind, h]
  · intro h
    simp [cancelBulkCapture, hfind, h]
  · simp [servicePauseJob, hfind]

/-- A registry holding one completed job. -/
def completedJobReg : Registry := [("c", { initBulkState with status := .completed })]

/-- Witness for the amended C4: pausing an already-completed job fails with
the 400 guard and leaves the registry unchanged. -/
theorem bulk_control_transition_guards_witness :
    pauseBulkCapture completedJobReg "c"
      = ⟨.error ⟨400, "Can only pause running jobs"⟩, completedJobReg⟩ :=
  (bulk_control_transition_guards completedJobReg "c"
    { initBulkState with status := .completed } (by decide)).1 (by decide)

/-! ## C8 -/

/-- Two bulk names with the same base and the same timestamp but different
sequence numbers differ. -/
theorem bulk_name_core_inj (p ts : List Char) (i j : Nat) (hij : i ≠ j) :
    p ++ '_' :: (pad3 i ++ '_' :: ts) ≠ p ++ '_' :: (pad3 j ++ '_' :: ts) := by
  intro h
  have h1 := List.append_cancel_left h
  injection h1 with _ h2
  exact hij (pad3_injective (List.append_cancel_right h2))

/-- Any two char lists ending in `_f` plus the 3-digit frame number carry
the frame number faithfully. -/
theorem cal_suffix_inj (A B : List Char) (i j : Nat) (hi : i < 1000) (hj : j < 1000)
    (h : A ++ '_' :: 'f' :: pad3 i = B ++ '_' :: 'f' :: pad3 j) : i = j := by
  have hlen : ('_' :: 'f' :: pad3 i).length = ('_' :: 'f' :: pad3 j).length := by
    simp [pad3_length_eq_three hi, pad3_length_eq_three hj]
  obtain ⟨-, htail⟩ := List.append_inj' h hlen
  injection htail with _ htail2
  injection htail2 with _ htail3
  exact pad3_injective htail3

/-- Reassociation of the name pieces around a common tail. -/
theorem append_shape3 (b p t tail : List Char) :
    b ++ '_' :: (p ++ '_' :: (t ++ tail)) = (b ++ '_' :: (p ++ '_' :: t)) ++ tail := by
  simp

/-- Reassociation of the name pieces around a common tail, no-params form. -/
theorem append_shape2 (b t tail : List Char) :
    b ++ '_' :: (t ++ tail) = (b ++ '_' :: t) ++ tail := by
  simp

/-- Every calibration filename is some prefix followed by `_f` and the
padded frame number. -/
theorem calGenerateFilename_shape (req : CalibrationRequest) (t : Option Rat)
    (tempStr ts : List Char) (n : Nat) :
    ∃ A, calGenerateFilename req t tempStr ts n = A ++ '_' :: 'f' :: pad3 n := by
  unfold calGenerateFilename
  dsimp only
  split
  · exact ⟨_, append_shape3 _ _ _ _⟩
  · exact ⟨_, append_shape2 _ _ _⟩

/-- C8: within one job the Naming Strategy is collision-free across frame
indices, even for calls that fall in the same timestamp second (equal
timestamp strings): distinct indices give distinct names.  For calibration
names the per-frame parameters (e.g. the drifting temperature rendering)
may even differ arbitrarily between the two calls. -/
theorem naming_distinct_within_job :
    (∀ (req : BulkCaptureRequest) (target ts : List Char) (i j : Nat), i ≠ j →
      generateImageName req target i ts ≠ generateImageName req target j ts) ∧
    (∀ (req : CalibrationRequest) (ti tj : Option Rat) (si sj ts : List Char)
      (i j : Nat), req.pydanticValid → i ≤ req.count → j ≤ req.count → i ≠ j →
      calGenerateFilename req ti si ts i ≠ calGenerateFilename req tj sj ts j) := by
  constructor
  · intro req target ts i j hij
    cases hb : req.base_name with
    | some base =>
      simp only [generateImageName, hb]
      exact bulk_name_core_inj base ts i j hij
    | none =>
      cases hs : req.session_id with
      | some sid =>
        simp only [generateImageName, hb, hs]
        exact bulk_name_core_inj target ts i j hij
      | none =>
        simp only [generateImageName, hb, hs]
        exact bulk_name_core_inj ['b', 'u', 'l', 'k'] ts i j hij
  · intro req ti tj si sj ts i j hvalid hi hj hij h
    obtain ⟨A, hA⟩ := calGenerateFilename_shape req ti si ts i
    obtain ⟨B, hB⟩ := calGenerateFilename_shape req tj sj ts j
    rw [hA, hB] at h
    have hcount : req.count ≤ 500 := hvalid.2.1
    exact hij (cal_suffix_inj A B i j (by omega) (by omega) h)

/-- Witness for C8: the two claim families applied at concrete inputs —
frames 1 and 2 of a bulk job with base name "m31" and of the bias
calibration job, both generated in the same timestamp second. -/
theorem naming_distinct_within_job_witness :
    ((1 : Nat) ≠ 2 ∧
      generateImageName ⟨3, 0, none, some ['m', '3', '1']⟩ [] 1 ['t']
        ≠ generateImageName ⟨3, 0, none, some ['m', '3', '1']⟩ [] 2 ['t']) ∧
    (biasReq.pydanticValid ∧ 1 ≤ biasReq.count ∧ 2 ≤ biasReq.count ∧
      calGenerateFilename biasReq none [] ['t'] 1
        ≠ calGenerateFilename biasReq none [] ['t'] 2) :=
  ⟨⟨by decide,
    naming_distinct_within_job.1 ⟨3, 0, none, some ['m', '3', '1']⟩ [] ['t'] 1 2
      (by decide)⟩,
   ⟨by unfold CalibrationRequest.pydanticValid biasReq; norm_num [aduOk],
    by decide, by decide,
    naming_distinct_within_job.2 biasReq none none [] [] ['t'] 1 2
      (by unfold CalibrationRequest.pydanticValid biasReq; norm_num [aduOk])
      (by decide) (by decide) (by decide)⟩⟩

end AstroServer
